import Mathlib

/-!
Verification development for the cairo-proof-parser repository.

The Rust sources are shallowly embedded in Lean:
* machine integers (`u32`, `usize`) are modelled as `Nat`; none of the
  properties below involve wrap-around, and every computation that can
  panic in Rust (unsigned subtraction underflow, `assert_eq!`) is
  modelled explicitly with `Option`/`Except`, `none`/`.error` standing
  for the abort;
* a field element (`Felt` / `FieldElement`) is modelled as a `Nat`;
  conversions that reject values outside the STARK field are modelled
  with an explicit bound check against `starkPrime`;
* `HashMap`/`BTreeMap` values are modelled as association lists with
  first-match lookup (keys are unique in all uses).
-/

/-- A STARK field element, modelled as its canonical natural value. -/
abbrev Felt := Nat

/-- The STARK prime 2^251 + 17 * 2^192 + 1 (the modulus of `FieldElement`). -/
def starkPrime : Nat := 2 ^ 251 + 17 * 2 ^ 192 + 1

namespace SerdeFelt

/-- Embeds serde-felt's `Error` enum (src/serde-felt/src/error.rs). -/
inductive Error where
  | Message
  | Err
  | DataLeft
  | NoDataLeft
  | InvalidArrayLen
  | ValueExceededRange
  | LengthSpecifiedButNotEnoughProvided
  | MoreLengthsThanVectors
  | LengthSetButNotConsumed
  | LengthNotKnownAtSerialization
  | UnparsableString
  deriving DecidableEq, Repr

/-- `Lengths = HashMap<String, Vec<usize>>` (deser.rs line 9), modelled as an
association list with unique keys. -/
abbrev Lengths := List (String × List Nat)

/-- First-match lookup in a `Lengths` table, embedding `HashMap::get_mut`. -/
def lookupLens : Lengths → String → Option (List Nat)
  | [], _ => none
  | (k, v) :: rest, name => if k = name then some v else lookupLens rest name

/-- Replace the list bound to `name` (the in-place mutation performed through
`get_mut` in `apply_override`). -/
def setLens : Lengths → String → List Nat → Lengths
  | [], _, _ => []
  | (k, v) :: rest, name, l =>
      if k = name then (k, l) :: rest else (k, v) :: setLens rest name l

/-- The deserializer state (deser.rs lines 11-15): the remaining input
slice, the optional per-field-name length table, and the single-slot
`next_length` side channel. -/
structure DeserState where
  input : List Felt
  lengths : Option Lengths
  nextLength : Option Nat
  deriving DecidableEq, Repr

/-- `Deserializer::take` (deser.rs lines 22-27): pop the first felt,
`NoDataLeft` when the input is exhausted. -/
def take (s : DeserState) : Except Error (Felt × DeserState) :=
  match s.input with
  | [] => .error .NoDataLeft
  | f :: rest => .ok (f, { s with input := rest })

/-- `Deserializer::get_length` (deser.rs lines 45-49): read and clear the
single-slot `next_length`. -/
def getLength (s : DeserState) : Option Nat × DeserState :=
  (s.nextLength, { s with nextLength := none })

/-- `Deserializer::apply_override` (deser.rs lines 51-67): when a length
table is installed and registers `name`, pop the head of its list into the
`next_length` slot; an exhausted list is `MoreLengthsThanVectors`, an
already-occupied slot is `LengthSetButNotConsumed`. -/
def applyOverride (name : String) (s : DeserState) : Except Error DeserState :=
  match s.lengths with
  | none => .ok s
  | some m =>
    match lookupLens m name with
    | none => .ok s
    | some [] => .error .MoreLengthsThanVectors
    | some (l :: rest) =>
      if s.nextLength.isSome then .error .LengthSetButNotConsumed
      else .ok { s with lengths := some (setLens m name rest), nextLength := some l }

/-- A decoding step for one value of type `α`: the monomorphised shape of a
serde `Deserialize` impl run against this deserializer. -/
abbrev DecM (α : Type) := DeserState → Except Error (α × DeserState)

/-- Read exactly `n` elements with the element decoder (`DeserSeq` with a
known remaining count, deser.rs lines 433-439). -/
def readElems (elem : DecM α) : Nat → DecM (List α)
  | 0, s => .ok ([], s)
  | n + 1, s => do
    let (x, s1) ← elem s
    let (xs, s2) ← readElems elem n s1
    .ok (x :: xs, s2)

/-- `deserialize_seq` through `DeserSeq::new` (deser.rs lines 283-288 and
406-452): take the pending length override if one is queued, otherwise read
one felt from the stream and parse it as a `usize` length
(`InvalidArrayLen` when it does not fit), then read that many elements. -/
def decodeSeq (elem : DecM α) : DecM (List α) := fun s =>
  let (len?, s1) := getLength s
  match len? with
  | some n => readElems elem n s1
  | none => do
    let (f, s2) ← take s1
    if f < 2 ^ 64 then readElems elem f s2 else .error .InvalidArrayLen

/-- Decoding one `Felt`: `Felt::deserialize` goes through `deserialize_str`
(deser.rs lines 223-229), which formats the taken felt as hex and parses it
back — the net effect is taking one felt verbatim. -/
def decodeFelt : DecM Felt := take

/-- `from_felts_inner` (deser.rs lines 84-113): run the decoder on the
initial state; leftover length entries and leftover input are both
tolerated (the strict checks at lines 96-105 and 107-112 are disabled in
the source). -/
def fromFeltsInner (dec : DecM α) (input : List Felt) (lengths : Option Lengths) :
    Except Error α :=
  match dec { input := input, lengths := lengths, nextLength := none } with
  | .error e => .error e
  | .ok (t, _) => .ok t

/-- `from_felts` (deser.rs lines 70-75). -/
def fromFelts (dec : DecM α) (input : List Felt) : Except Error α :=
  fromFeltsInner dec input none

/-- `from_felts_with_lengths` (deser.rs lines 77-82). -/
def fromFeltsWithLengths (dec : DecM α) (input : List Felt) (lengths : Lengths) :
    Except Error α :=
  fromFeltsInner dec input (some lengths)

/-- The `WithSequence` record of serde-felt's tests
(src/serde-felt/src/tests.rs lines 21-25): `{ a: Vec<Felt>, b: Felt }`. -/
structure WithSequence where
  a : List Felt
  b : Felt
  deriving DecidableEq, Repr

/-- The derived `Deserialize` for `WithSequence`, monomorphised: the struct
visitor walks the fields in declaration order, running `apply_override`
with each field's name before decoding its value (deser.rs lines 325-335
and 380-404). -/
def decodeWithSequence : DecM WithSequence := fun s => do
  let s ← applyOverride "a" s
  let (a, s) ← decodeSeq decodeFelt s
  let s ← applyOverride "b" s
  let (b, s) ← decodeFelt s
  .ok ({ a := a, b := b }, s)

/-- Modelled from the spec: serde-felt's serializer (`ser.rs`, the
`to_felts` entry point) is not present in the source tree; §4.4 of the
spec states the encoding rules — record fields in declaration order, a
sequence as one length-prefixed felt followed by its elements, a scalar as
one felt. -/
def encodeWithSequence (v : WithSequence) : List Felt :=
  (v.a.length :: v.a) ++ [v.b]

end SerdeFelt

instance {ε α : Type} [DecidableEq ε] [DecidableEq α] : DecidableEq (Except ε α) := fun a b =>
  match a, b with
  | .ok x, .ok y =>
    if h : x = y then isTrue (by rw [h]) else isFalse (by intro hc; cases hc; exact h rfl)
  | .ok _, .error _ => isFalse (by intro hc; cases hc)
  | .error _, .ok _ => isFalse (by intro hc; cases hc)
  | .error e, .error f =>
    if h : e = f then isTrue (by rw [h]) else isFalse (by intro hc; cases hc; exact h rfl)

/-- The supported trace layouts (src/proof-parser/src/layout.rs lines 9-17). -/
inductive Layout where
  | Dex
  | Plain
  | Recursive
  | RecursiveWithPoseidon
  | Small
  | Starknet
  | StarknetWithKeccak
  deriving DecidableEq, Repr

/-- Per-layout constant set (layout.rs lines 83-88). -/
structure LayoutConstants where
  cpu_component_step : Nat
  constraint_degree : Nat
  num_columns_first : Nat
  num_columns_second : Nat
  deriving DecidableEq, Repr

/-- `Layout::get_consts` (layout.rs lines 20-30 and the per-layout
constructors at lines 90-147). -/
def Layout.get_consts : Layout → LayoutConstants
  | .Dex =>
      { constraint_degree := 2, cpu_component_step := 1,
        num_columns_first := 21, num_columns_second := 1 }
  | .Plain =>
      { constraint_degree := 2, cpu_component_step := 1,
        num_columns_first := 6, num_columns_second := 2 }
  | .Recursive =>
      { constraint_degree := 2, cpu_component_step := 1,
        num_columns_first := 7, num_columns_second := 3 }
  | .RecursiveWithPoseidon =>
      { constraint_degree := 2, cpu_component_step := 1,
        num_columns_first := 6, num_columns_second := 2 }
  | .Small =>
      { constraint_degree := 2, cpu_component_step := 1,
        num_columns_first := 23, num_columns_second := 2 }
  | .Starknet =>
      { constraint_degree := 2, cpu_component_step := 1,
        num_columns_first := 9, num_columns_second := 1 }
  | .StarknetWithKeccak =>
      { constraint_degree := 2, cpu_component_step := 1,
        num_columns_first := 12, num_columns_second := 3 }

/-- `Layout::mask_len` (layout.rs lines 151-161). -/
def Layout.mask_len : Layout → Nat
  | .Recursive => 133
  | .Starknet => 271
  | .Dex => 200
  | .Plain => 49
  | .RecursiveWithPoseidon => 192
  | .Small => 201
  | .StarknetWithKeccak => 734

/-- The layout's display name (layout.rs lines 69-81). -/
def Layout.displayName : Layout → String
  | .Dex => "dex"
  | .Plain => "plain"
  | .Recursive => "recursive"
  | .RecursiveWithPoseidon => "recursive_with_poseidon"
  | .Small => "small"
  | .Starknet => "starknet"
  | .StarknetWithKeccak => "starknet_with_keccak"

/-- `Layout::bytes_encode` (layout.rs lines 64-66): the UTF-8 bytes of the
display name (all names are ASCII). -/
def Layout.bytes_encode (l : Layout) : List Nat :=
  l.displayName.toList.map Char.toNat

/-- A dynamic-parameter map (`BTreeMap<String, BigUint>`), modelled as an
association list with unique keys. -/
abbrev DynamicParams := List (String × Nat)

/-- First-match lookup, embedding `BTreeMap::get`. -/
def lookupParam : DynamicParams → String → Option Nat
  | [], _ => none
  | (k, v) :: rest, name => if k = name then some v else lookupParam rest name

/-- `<&BigUint>::try_into::<u32>`: succeeds exactly on values below 2^32. -/
def tryIntoU32 (n : Nat) : Option Nat :=
  if n < 2 ^ 32 then some n else none

/-- One field of `Layout::get_dynamics_or_consts` (layout.rs lines 41-62):
`dynamic_params.get(key).map(try_into).map(Result::ok)?.unwrap_or(base)`.
The `?` acts on the outer `Option` produced by `get`, so an absent key
aborts the whole function with `None`, while a failed conversion is folded
back to the base constant by `unwrap_or`. -/
def dynamicField (m : DynamicParams) (key : String) (base : Nat) : Option Nat :=
  match lookupParam m key with
  | none => none
  | some v => some ((tryIntoU32 v).getD base)

/-- `Layout::get_dynamics_or_consts` (layout.rs lines 31-63). -/
def Layout.get_dynamics_or_consts (l : Layout) (dynamic_params : Option DynamicParams) :
    Option LayoutConstants :=
  let consts := l.get_consts
  match dynamic_params with
  | none => some consts
  | some m => do
    let cpu_component_step ← dynamicField m "cpu_component_step" consts.cpu_component_step
    let constraint_degree ← dynamicField m "constraint_degree" consts.constraint_degree
    let num_columns_first ← dynamicField m "num_columns_first" consts.num_columns_first
    let num_columns_second ← dynamicField m "num_columns_second" consts.num_columns_second
    some { cpu_component_step := cpu_component_step,
           constraint_degree := constraint_degree,
           num_columns_first := num_columns_first,
           num_columns_second := num_columns_second }

/-- `Fri` (src/proof-parser/src/proof_params.rs lines 17-23). -/
structure Fri where
  fri_step_list : List Nat
  last_layer_degree_bound : Nat
  n_queries : Nat
  proof_of_work_bits : Nat
  deriving DecidableEq, Repr

/-- `Stark` (proof_params.rs lines 11-15). -/
structure Stark where
  fri : Fri
  log_n_cosets : Nat
  deriving DecidableEq, Repr

/-- `ProofParameters` (proof_params.rs lines 3-8). -/
structure ProofParameters where
  stark : Stark
  n_verifier_friendly_commitment_layers : Nat
  deriving DecidableEq, Repr

/-- `ProverConfig` (proof_params.rs lines 25-30). -/
structure ProverConfig where
  constraint_polynomial_task_size : Nat
  n_out_of_memory_merkle_layers : Nat
  table_prover_n_tasks_per_segment : Nat
  deriving DecidableEq, Repr

/-- `fri_degree_bound` (src/proof-parser/src/proof_structure.rs lines
11-17): the last-layer degree bound multiplied by `2^s` for every FRI
step `s`. -/
def fri_degree_bound (pp : ProofParameters) : Nat :=
  pp.stark.fri.fri_step_list.foldl (fun e s => e * 2 ^ s) pp.stark.fri.last_layer_degree_bound

/-- `leaves` (proof_structure.rs lines 19-29): per inner FRI step `x`
(skipping the first), `(1 << (x + 4)) - 16`. -/
def leaves (pp : ProofParameters) : List Nat :=
  (pp.stark.fri.fri_step_list.drop 1).map (fun x => 2 ^ (x + 4) - 16)

/-- The per-layer values `first_fri_step - cumulative` of `witness`
(proof_structure.rs lines 62-72), with `first_fri_step = 16`. The Rust
subtraction is on `u32` and panics when a cumulative step sum exceeds 16;
`none` models that abort. -/
def witnessSteps : List Nat → Nat → Option (List Nat)
  | [], _ => some []
  | v :: rest, cumulative =>
    let c := cumulative + v
    if c ≤ 16 then (witnessSteps rest c).map (fun l => (16 - c) :: l)
    else none

/-- `witness` (proof_structure.rs lines 62-80) given the already-computed
`authentication_additional_queries` correction: each per-layer value is
multiplied by `n_queries` and incremented by the correction. -/
def witnessLens (pp : ProofParameters) (additional : Nat) : Option (List Nat) :=
  (witnessSteps (pp.stark.fri.fri_step_list.drop 1) 0).map
    (List.map (fun len => pp.stark.fri.n_queries * len + additional))

/-- `ProofStructure` (proof_structure.rs lines 82-93). -/
structure ProofStructure where
  first_layer_queries : Nat
  layer_count : Nat
  composition_decommitment : Nat
  oods : Nat
  composition_leaves : Nat
  last_layer_degree_bound : Nat
  authentications : Nat
  layer : List Nat
  witness : List Nat
  deriving DecidableEq, Repr

/-- `ProofStructure::expected_len` (proof_structure.rs lines 133-141). -/
def ProofStructure.expected_len (s : ProofStructure) : Nat :=
  let commitment_len := 3 + s.oods + s.layer_count + s.last_layer_degree_bound + 1
  let witness_len := s.first_layer_queries + s.composition_decommitment +
    s.composition_leaves + 3 * s.authentications
  let fri_len := s.layer.sum + s.witness.sum
  commitment_len + witness_len + fri_len

/-- The field computations of `ProofStructure::new` (proof_structure.rs
lines 108-125) for a given `authentication_additional_queries` value.
`none` models the two panics reachable while building the fields: the
`usize` underflow of `fri_step_list.len() - 1` on an empty step list, and
the `u32` underflow inside `witness`. -/
def mkProofStructure (pp : ProofParameters) (pc : ProverConfig) (layout : Layout)
    (additional : Nat) : Option ProofStructure :=
  let n_queries := pp.stark.fri.n_queries
  let consts := layout.get_consts
  if pp.stark.fri.fri_step_list.isEmpty then none
  else
    (witnessLens pp additional).map (fun w =>
      { first_layer_queries := n_queries * consts.num_columns_first,
        layer_count := pp.stark.fri.fri_step_list.length - 1,
        composition_decommitment := n_queries * consts.num_columns_second,
        oods := layout.mask_len + pp.stark.log_n_cosets - 1,
        last_layer_degree_bound := pp.stark.fri.last_layer_degree_bound,
        composition_leaves := 2 * n_queries,
        authentications := pc.constraint_polynomial_task_size + additional,
        layer := leaves pp,
        witness := w })

/-- `authentication_additional_queries` (proof_structure.rs lines 37-60):
0 when no total is supplied; otherwise a second `ProofStructure` is built
with no total and the surplus over its `expected_len()` is divided by
`3 + witness.len()`. The Rust subtraction is on `usize` and panics when
the supplied total is below the baseline length; `none` models the abort
(in this function every failure is a panic — its Rust signature has no
error channel). -/
def authentication_additional_queries (pp : ProofParameters) (pc : ProverConfig)
    (layout : Layout) (proof_len : Option Nat) : Option Nat :=
  match proof_len with
  | none => some 0
  | some t =>
    (mkProofStructure pp pc layout 0).bind (fun without_additional =>
      let authentication_count := 3 + without_additional.witness.length
      if without_additional.expected_len ≤ t then
        some ((t - without_additional.expected_len) / authentication_count)
      else none)

/-- `ProofStructure::new` (proof_structure.rs lines 96-131): build the
fields (with the additional-queries correction folded in), then, when a
total is supplied, `assert_eq!(expected_len(), proof_len)`; `none` models
every reachable panic, including that assertion. -/
def ProofStructure.new (pp : ProofParameters) (pc : ProverConfig) (layout : Layout)
    (proof_len : Option Nat) : Option ProofStructure :=
  (authentication_additional_queries pp pc layout proof_len).bind (fun additional =>
    (mkProofStructure pp pc layout additional).bind (fun s =>
      match proof_len with
      | none => some s
      | some t => if s.expected_len = t then some s else none))

/-- `log2_if_power_of_2` (src/proof-parser/src/utils.rs lines 2-8): the
power-of-two test `x != 0 && x & (x - 1) == 0`, then the exact base-2
logarithm (the source's `f64::log2` is exact on powers of two). -/
def log2_if_power_of_2 (x : Nat) : Option Nat :=
  if x ≠ 0 ∧ x &&& (x - 1) = 0 then some (Nat.log2 x) else none

/-- `MemorySegmentAddress` (src/proof-parser/src/json_parser.rs lines 38-41). -/
structure MemorySegmentAddress where
  begin_addr : Nat
  stop_ptr : Nat
  deriving DecidableEq, Repr

/-- `PublicMemoryElement` (json_parser.rs lines 44-48). -/
structure PublicMemoryElement where
  address : Nat
  page : Nat
  value : String
  deriving DecidableEq, Repr

/-- `PublicInput` (json_parser.rs lines 51-59); `memory_segments` is the
`HashMap<String, MemorySegmentAddress>` as an association list. -/
structure PublicInput where
  dynamic_params : Option DynamicParams
  layout : Layout
  memory_segments : List (String × MemorySegmentAddress)
  n_steps : Nat
  public_memory : List PublicMemoryElement
  rc_min : Nat
  rc_max : Nat
  deriving DecidableEq, Repr

/-- `ProofJSON` (json_parser.rs lines 29-35). `proof_hex` holds the raw
bytes the `0x`-prefixed hex string denotes: the textual hex decoding is
performed by the external `prefix_hex` crate and is modelled as already
done, one `Nat` per byte. -/
structure ProofJSON where
  proof_parameters : ProofParameters
  annotations : List String
  public_input : PublicInput
  proof_hex : List Nat
  prover_config : ProverConfig
  deriving DecidableEq, Repr

/-- The numeric value of one hex digit. -/
def hexDigitVal (c : Char) : Option Nat :=
  if '0' ≤ c ∧ c ≤ '9' then some (c.toNat - '0'.toNat)
  else if 'a' ≤ c ∧ c ≤ 'f' then some (c.toNat - 'a'.toNat + 10)
  else if 'A' ≤ c ∧ c ≤ 'F' then some (c.toNat - 'A'.toNat + 10)
  else none

/-- Fold a list of hex digits big-endian. -/
def hexFold : List Char → Nat → Option Nat
  | [], acc => some acc
  | c :: rest, acc =>
    match hexDigitVal c with
    | none => none
    | some v => hexFold rest (acc * 16 + v)

/-- `FieldElement::from_hex_be` (starknet-crypto, external): parse an
optionally `0x`-prefixed big-endian hex string and reject values outside
the field. -/
def feltFromHexBe (str : String) : Option Felt :=
  let chars :=
    match str.toList with
    | '0' :: 'x' :: rest => rest
    | l => l
  if chars.isEmpty then none
  else
    match hexFold chars 0 with
    | none => none
    | some v => if v < starkPrime then some v else none

/-- `BigUint → FieldElement` through
`FieldElement::from_hex_be(&bigint.to_str_radix(16))` (json_parser.rs
lines 61-63 and 186-192): succeeds exactly on values inside the field. -/
def feltFromBigUint (n : Nat) : Option Felt :=
  if n < starkPrime then some n else none

/-- `SegmentInfo` (from the missing stark_proof.rs; shape taken from its
construction at json_parser.rs lines 196-199). -/
structure SegmentInfo where
  begin_addr : Nat
  stop_ptr : Nat
  deriving DecidableEq, Repr

/-- `PublicMemoryCell` (from the missing stark_proof.rs; shape taken from
json_parser.rs lines 232-235). -/
structure PublicMemoryCell where
  address : Nat
  value : Felt
  deriving DecidableEq, Repr

/-- `CairoPublicInput` (from the missing stark_proof.rs; shape taken from
its construction at json_parser.rs lines 207-222). -/
structure CairoPublicInput where
  log_n_steps : Nat
  range_check_min : Nat
  range_check_max : Nat
  layout : Felt
  dynamic_params : List (String × Felt)
  n_segments : Nat
  segments : List SegmentInfo
  padding_addr : Nat
  padding_value : Felt
  main_page_len : Nat
  main_page : List PublicMemoryCell
  n_continuous_pages : Nat
  continuous_page_headers : List Felt
  deriving DecidableEq, Repr

/-- Modelled from the spec: `Builtin::sort_segments` lives in the missing
builtins.rs; per §4.5 and §6 it reorders the named memory segments into the
fixed per-builtin convention (program, execution, output, then the builtin
segments), keeping those present in the map. -/
def builtinSegmentOrder : List String :=
  ["program", "execution", "output", "pedersen", "range_check", "ecdsa",
   "bitwise", "ec_op", "keccak", "poseidon"]

/-- Modelled from the spec: see `builtinSegmentOrder`. -/
def sortSegments (segments : List (String × MemorySegmentAddress)) :
    List MemorySegmentAddress :=
  builtinSegmentOrder.filterMap (fun name =>
    (segments.find? (fun kv => kv.1 = name)).map Prod.snd)

/-- `ProofJSON::main_page` (json_parser.rs lines 225-238): keep the page-0
elements and parse each value as a field element. -/
def main_page (public_memory : List PublicMemoryElement) :
    Except String (List PublicMemoryCell) :=
  (public_memory.filter (fun m => m.page = 0)).mapM (fun m =>
    match feltFromHexBe m.value with
    | some v => .ok { address := m.address, value := v }
    | none => .error "Invalid memory value")

/-- The dynamic-params conversion inside `ProofJSON::public_input`
(json_parser.rs lines 182-193): every `BigUint` entry becomes a
`FieldElement`, failing on values outside the field. -/
def convertDynamicParams (params : Option DynamicParams) :
    Except String (List (String × Felt)) :=
  (params.getD []).mapM (fun e =>
    match feltFromBigUint e.2 with
    | some v => .ok (e.1, v)
    | none => .error "Invalid dynamic param")

/-- The layout field element: `FieldElement::from_hex_be(&prefix_hex::encode
(layout.bytes_encode()))` (json_parser.rs lines 201-202) — the layout
name's bytes read as one big-endian integer, checked against the field. -/
def layoutFelt (l : Layout) : Except String Felt :=
  let v := l.bytes_encode.foldl (fun a b => a * 256 + b) 0
  if v < starkPrime then .ok v else .error "Invalid layout encoding"

/-- `ProofJSON::public_input` (json_parser.rs lines 174-223). The steps
run in source order: main page, dynamic params, segments, layout felt,
then the padding cell taken from the first public-memory element —
bailing with "Invalid public memory" when there is none — and finally the
`log_n_steps` check inside the result record. -/
def publicInputOf (public_input : PublicInput) : Except String CairoPublicInput := do
  let continuous_page_headers : List Felt := []
  let mp ← main_page public_input.public_memory
  let dynamic_params ← convertDynamicParams public_input.dynamic_params
  let memory_segments := (sortSegments public_input.memory_segments).map
    (fun s => SegmentInfo.mk s.begin_addr s.stop_ptr)
  let layout ← layoutFelt public_input.layout
  let (padding_addr, padding_value) ←
    match public_input.public_memory with
    | [] => Except.error "Invalid public memory"
    | m :: _ =>
      match feltFromHexBe m.value with
      | some v => Except.ok (m.address, v)
      | none => Except.error "Invalid memory value"
  let log_n_steps ←
    match log2_if_power_of_2 public_input.n_steps with
    | some v => Except.ok v
    | none => Except.error "Invalid number of steps"
  .ok { log_n_steps := log_n_steps,
        range_check_min := public_input.rc_min,
        range_check_max := public_input.rc_max,
        layout := layout,
        dynamic_params := dynamic_params,
        n_segments := memory_segments.length,
        segments := memory_segments,
        padding_addr := padding_addr,
        padding_value := padding_value,
        main_page_len := mp.length,
        main_page := mp,
        n_continuous_pages := continuous_page_headers.length,
        continuous_page_headers := continuous_page_headers }

/-- `VectorCommitmentConfig` (missing stark_proof.rs; shape from its
construction at json_parser.rs lines 91-94 etc.). -/
structure VectorCommitmentConfig where
  height : Nat
  n_verifier_friendly_commitment_layers : Nat
  deriving DecidableEq, Repr

/-- `TableCommitmentConfig` (missing stark_proof.rs; shape from
json_parser.rs lines 89-95). -/
structure TableCommitmentConfig where
  n_columns : Nat
  vector : VectorCommitmentConfig
  deriving DecidableEq, Repr

/-- `TracesConfig` (missing stark_proof.rs; shape from json_parser.rs
lines 88-103). -/
structure TracesConfig where
  original : TableCommitmentConfig
  interaction : TableCommitmentConfig
  deriving DecidableEq, Repr

/-- `ProofOfWorkConfig` (missing stark_proof.rs; shape from
json_parser.rs lines 115-117). -/
structure ProofOfWorkConfig where
  n_bits : Nat
  deriving DecidableEq, Repr

/-- `FriConfig` (missing stark_proof.rs; shape from json_parser.rs lines
125-141). -/
structure FriConfig where
  log_input_size : Nat
  n_layers : Nat
  inner_layers : List TableCommitmentConfig
  fri_step_sizes : List Nat
  log_last_layer_degree_bound : Nat
  deriving DecidableEq, Repr

/-- `StarkConfig` (missing stark_proof.rs; shape from json_parser.rs
lines 143-152). -/
structure StarkConfig where
  traces : TracesConfig
  composition : TableCommitmentConfig
  fri : FriConfig
  proof_of_work : ProofOfWorkConfig
  log_trace_domain_size : Nat
  n_queries : Nat
  log_n_cosets : Nat
  n_verifier_friendly_commitment_layers : Nat
  deriving DecidableEq, Repr

/-- `ProofJSON::log_trace_domain_size` (json_parser.rs lines 155-160):
`log2(COMPONENT_HEIGHT * cpu_component_step * n_steps)` with
`COMPONENT_HEIGHT = 16`. -/
def log_trace_domain_size (public_input : PublicInput) : Except String Nat :=
  let consts := public_input.layout.get_consts
  let effective_component_height := 16 * consts.cpu_component_step
  match log2_if_power_of_2 (effective_component_height * public_input.n_steps) with
  | some v => .ok v
  | none => .error "Invalid cpu component step"

/-- `ProofJSON::log_eval_damain_size` (json_parser.rs lines 162-164). -/
def log_eval_damain_size (j : ProofJSON) : Except String Nat := do
  let t ← log_trace_domain_size j.public_input
  .ok (t + j.proof_parameters.stark.log_n_cosets)

/-- `ProofJSON::layer_log_sizes` (json_parser.rs lines 166-172): start
from the eval-domain log size and subtract each FRI step in turn. The
`u32` subtraction panics on underflow; `.error` models that abort. -/
def layer_log_sizes (j : ProofJSON) : Except String (List Nat) := do
  let first ← log_eval_damain_size j
  let rec go (steps : List Nat) (last : Nat) : Except String (List Nat) :=
    match steps with
    | [] => .ok []
    | s :: rest =>
      if s ≤ last then do
        let tail ← go rest (last - s)
        .ok ((last - s) :: tail)
      else .error "layer log size underflow"
  let tail ← go j.proof_parameters.stark.fri.fri_step_list first
  .ok (first :: tail)

/-- `ProofJSON::stark_config` (json_parser.rs lines 71-153). The slice
expressions `fri_step_list[1..]` and `layer_log_sizes[2..]` panic when the
step list is empty; the guard models that abort. -/
def stark_config (j : ProofJSON) : Except String StarkConfig := do
  let stark := j.proof_parameters.stark
  let n_verifier_friendly_commitment_layers :=
    j.proof_parameters.n_verifier_friendly_commitment_layers
  let consts ←
    match j.public_input.layout.get_dynamics_or_consts j.public_input.dynamic_params with
    | some c => Except.ok c
    | none => Except.error "dynamic param overrides could not be parsed"
  let log_eval_domain_size ← log_eval_damain_size j
  let traces : TracesConfig :=
    { original := { n_columns := consts.num_columns_first,
                    vector := { height := log_eval_domain_size,
                                n_verifier_friendly_commitment_layers } },
      interaction := { n_columns := consts.num_columns_second,
                       vector := { height := log_eval_domain_size,
                                   n_verifier_friendly_commitment_layers } } }
  let composition : TableCommitmentConfig :=
    { n_columns := consts.constraint_degree,
      vector := { height := log_eval_domain_size,
                  n_verifier_friendly_commitment_layers } }
  let fri := stark.fri
  let proof_of_work : ProofOfWorkConfig := { n_bits := fri.proof_of_work_bits }
  let n_queries := fri.n_queries
  let sizes ← layer_log_sizes j
  if fri.fri_step_list.isEmpty then Except.error "empty fri step list"
  else do
    let fri_step_list := fri.fri_step_list
    let log_last_layer_degree_bound ←
      match log2_if_power_of_2 fri.last_layer_degree_bound with
      | some v => Except.ok v
      | none => Except.error "Invalid last layer degree bound"
    let friConfig : FriConfig :=
      { log_input_size := sizes.headD 0,
        n_layers := fri_step_list.length,
        inner_layers := (fri_step_list.drop 1).zipWith
          (fun layer_steps layer_log_rows =>
            { n_columns := 2 ^ layer_steps,
              vector := { height := layer_log_rows,
                          n_verifier_friendly_commitment_layers } })
          (sizes.drop 2),
        fri_step_sizes := fri_step_list,
        log_last_layer_degree_bound := log_last_layer_degree_bound }
    let t ← log_trace_domain_size j.public_input
    .ok { traces := traces,
          composition := composition,
          fri := friConfig,
          proof_of_work := proof_of_work,
          log_trace_domain_size := t,
          n_queries := n_queries,
          log_n_cosets := stark.log_n_cosets,
          n_verifier_friendly_commitment_layers }

/-- `TracesUnsentCommitment` (missing stark_proof.rs; field names and
order from its construction at json_parser.rs lines 251-254). -/
structure TracesUnsentCommitment where
  original : Felt
  interaction : Felt
  deriving DecidableEq, Repr

/-- `FriUnsentCommitment` (missing stark_proof.rs; shape from
json_parser.rs lines 257-260). -/
structure FriUnsentCommitment where
  inner_layers : List Felt
  last_layer_coefficients : List Felt
  deriving DecidableEq, Repr

/-- `StarkUnsentCommitment` (missing stark_proof.rs; field names and
order from json_parser.rs lines 250-262). -/
structure StarkUnsentCommitment where
  traces : TracesUnsentCommitment
  composition : Felt
  oods_values : List Felt
  fri : FriUnsentCommitment
  proof_of_work_nonce : Felt
  deriving DecidableEq, Repr

/-- `FriLayerWitness` (missing stark_proof.rs; shape from json_parser.rs
lines 277-280). -/
structure FriLayerWitness where
  leaves : List Felt
  table_witness : List Felt
  deriving DecidableEq, Repr

/-- `FriWitness` (missing stark_proof.rs; shape from json_parser.rs
lines 273-282). -/
structure FriWitness where
  layers : List FriLayerWitness
  deriving DecidableEq, Repr

/-- `StarkWitness` (missing stark_proof.rs; field names and order from
json_parser.rs lines 265-284). -/
structure StarkWitness where
  original_leaves : List Felt
  interaction_leaves : List Felt
  original_authentications : List Felt
  interaction_authentications : List Felt
  composition_leaves : List Felt
  composition_authentications : List Felt
  fri_witness : FriWitness
  deriving DecidableEq, Repr

namespace SerdeFelt

/-- Derived `Deserialize` for `TracesUnsentCommitment`: the struct visitor
applies the override of each field name, then takes the field's felt. -/
def decodeTracesUnsentCommitment : DecM TracesUnsentCommitment := fun s => do
  let s ← applyOverride "original" s
  let (original, s) ← decodeFelt s
  let s ← applyOverride "interaction" s
  let (interaction, s) ← decodeFelt s
  .ok ({ original := original, interaction := interaction }, s)

/-- Derived `Deserialize` for `FriUnsentCommitment`. -/
def decodeFriUnsentCommitment : DecM FriUnsentCommitment := fun s => do
  let s ← applyOverride "inner_layers" s
  let (inner_layers, s) ← decodeSeq decodeFelt s
  let s ← applyOverride "last_layer_coefficients" s
  let (last_layer_coefficients, s) ← decodeSeq decodeFelt s
  .ok ({ inner_layers := inner_layers,
         last_layer_coefficients := last_layer_coefficients }, s)

/-- Derived `Deserialize` for `StarkUnsentCommitment`: fields in
declaration order, each name passed through `apply_override`. -/
def decodeStarkUnsentCommitment : DecM StarkUnsentCommitment := fun s => do
  let s ← applyOverride "traces" s
  let (traces, s) ← decodeTracesUnsentCommitment s
  let s ← applyOverride "composition" s
  let (composition, s) ← decodeFelt s
  let s ← applyOverride "oods_values" s
  let (oods_values, s) ← decodeSeq decodeFelt s
  let s ← applyOverride "fri" s
  let (friC, s) ← decodeFriUnsentCommitment s
  let s ← applyOverride "proof_of_work_nonce" s
  let (nonce, s) ← decodeFelt s
  .ok ({ traces := traces, composition := composition, oods_values := oods_values,
         fri := friC, proof_of_work_nonce := nonce }, s)

/-- Derived `Deserialize` for `FriLayerWitness`. -/
def decodeFriLayerWitness : DecM FriLayerWitness := fun s => do
  let s ← applyOverride "leaves" s
  let (lv, s) ← decodeSeq decodeFelt s
  let s ← applyOverride "table_witness" s
  let (tw, s) ← decodeSeq decodeFelt s
  .ok ({ leaves := lv, table_witness := tw }, s)

/-- Derived `Deserialize` for `FriWitness`: the one field `layers` is a
sequence of layer witnesses. The `fri_witness` override set by the outer
struct survives the (unregistered) `layers` lookup and is consumed as the
sequence length. -/
def decodeFriWitness : DecM FriWitness := fun s => do
  let s ← applyOverride "layers" s
  let (layers, s) ← decodeSeq decodeFriLayerWitness s
  .ok ({ layers := layers }, s)

/-- Derived `Deserialize` for `StarkWitness`: fields in declaration
order, each name passed through `apply_override`. -/
def decodeStarkWitness : DecM StarkWitness := fun s => do
  let s ← applyOverride "original_leaves" s
  let (original_leaves, s) ← decodeSeq decodeFelt s
  let s ← applyOverride "interaction_leaves" s
  let (interaction_leaves, s) ← decodeSeq decodeFelt s
  let s ← applyOverride "original_authentications" s
  let (original_authentications, s) ← decodeSeq decodeFelt s
  let s ← applyOverride "interaction_authentications" s
  let (interaction_authentications, s) ← decodeSeq decodeFelt s
  let s ← applyOverride "composition_leaves" s
  let (composition_leaves, s) ← decodeSeq decodeFelt s
  let s ← applyOverride "composition_authentications" s
  let (composition_authentications, s) ← decodeSeq decodeFelt s
  let s ← applyOverride "fri_witness" s
  let (fw, s) ← decodeFriWitness s
  .ok ({ original_leaves := original_leaves,
         interaction_leaves := interaction_leaves,
         original_authentications := original_authentications,
         interaction_authentications := interaction_authentications,
         composition_leaves := composition_leaves,
         composition_authentications := composition_authentications,
         fri_witness := fw }, s)

/-- Decoding the pair `(StarkUnsentCommitment, StarkWitness)`: serde
tuples are read element after element with no overrides of their own
(deser.rs lines 290-295 and 418-423). -/
def decodeCommitmentWitnessPair : DecM (StarkUnsentCommitment × StarkWitness) := fun s => do
  let (c, s) ← decodeStarkUnsentCommitment s
  let (w, s) ← decodeStarkWitness s
  .ok ((c, w), s)

end SerdeFelt

/-- `HexProof::try_from` (json_parser.rs lines 290-301) after the
external `prefix_hex` decoding: split the byte list into 32-byte chunks
and read each chunk as a big-endian field element,
`FieldElement::from_byte_slice_be` rejecting values outside the field. -/
def hexProofFelts (bytes : List Nat) : Except String (List Felt) :=
  (bytes.toChunks 32).mapM (fun chunk =>
    let v := chunk.foldl (fun a b => a * 256 + b) 0
    if v < starkPrime then .ok v else .error "felt out of range")

/-- The length-override table built in `StarkProof::try_from`
(json_parser.rs lines 348-385), in source order. -/
def overrideTable (ps : ProofStructure) : SerdeFelt.Lengths :=
  [("oods_values", [ps.oods]),
   ("inner_layers", [ps.layer_count]),
   ("last_layer_coefficients", [ps.last_layer_degree_bound]),
   ("original_leaves", [ps.first_layer_queries]),
   ("original_authentications", [ps.authentications]),
   ("interaction_leaves", [ps.composition_decommitment]),
   ("interaction_authentications", [ps.authentications]),
   ("composition_leaves", [ps.composition_leaves]),
   ("composition_authentications", [ps.authentications]),
   ("fri_witness", [ps.witness.length]),
   ("leaves", ps.layer),
   ("table_witness", ps.witness)]

/-- `StarkProof` (missing stark_proof.rs; shape from its construction at
json_parser.rs lines 388-393; the `witness.into()` conversion is modelled
as the identity). -/
structure StarkProof where
  config : StarkConfig
  public_input : CairoPublicInput
  unsent_commitment : StarkUnsentCommitment
  witness : StarkWitness
  deriving DecidableEq, Repr

/-- `impl TryFrom<ProofJSON> for StarkProof` (json_parser.rs lines
328-397): build the config, the public input and the layout structure
(the call at lines 339-343 passes no expected total), decode the hex
body, and run the codec over it with the override table. The JSON's
annotation lines are never consulted on this path. -/
def starkProofTryFrom (j : ProofJSON) : Except String StarkProof := do
  let config ← stark_config j
  let public_input ← publicInputOf j.public_input
  let proof_structure ←
    match ProofStructure.new j.proof_parameters j.prover_config j.public_input.layout none with
    | some s => Except.ok s
    | none => Except.error "proof structure panic"
  let hex ← hexProofFelts j.proof_hex
  let pair ←
    match SerdeFelt.fromFeltsWithLengths SerdeFelt.decodeCommitmentWitnessPair hex
        (overrideTable proof_structure) with
    | .ok v => Except.ok v
    | .error _ => Except.error "codec error"
  .ok { config := config, public_input := public_input,
        unsent_commitment := pair.1, witness := pair.2 }

/-- The proof parameters of the reference test `test_lens`
(proof_structure.rs lines 148-159). -/
def testProofParameters : ProofParameters :=
  { stark := { fri := { fri_step_list := [0, 4, 4, 3], last_layer_degree_bound := 128,
                        n_queries := 16, proof_of_work_bits := 30 },
               log_n_cosets := 3 },
    n_verifier_friendly_commitment_layers := 0 }

/-- The prover config of the reference test `test_lens`
(proof_structure.rs lines 160-164). -/
def testProverConfig : ProverConfig :=
  { constraint_polynomial_task_size := 256, n_out_of_memory_merkle_layers := 1,
    table_prover_n_tasks_per_segment := 1 }

/-- The structure the calculator actually produces on the reference-test
parameters with no expected total. -/
def recursiveBaseStructure : ProofStructure :=
  { first_layer_queries := 112, layer_count := 3, composition_decommitment := 48,
    oods := 135, composition_leaves := 32, last_layer_degree_bound := 128,
    authentications := 256, layer := [240, 240, 112], witness := [192, 128, 80] }

/-- A minimal well-formed public input: one page-0 memory cell, a
power-of-two step count. -/
def smallPublicInput : PublicInput :=
  { dynamic_params := none,
    layout := Layout.Plain,
    memory_segments := [],
    n_steps := 1,
    public_memory := [{ address := 1, page := 0, value := "0x1" }],
    rc_min := 0,
    rc_max := 65535 }

/-- A public input whose `public_memory` list is empty. -/
def emptyMemoryPublicInput : PublicInput :=
  { smallPublicInput with public_memory := [] }

/-- A minimal well-formed proof JSON: plain layout, a single FRI step, one
query, so the hex body holds 67 felts (54 commitment + 13 witness), i.e.
67 × 32 = 2144 bytes, here all zero. -/
def smallProofJson : ProofJSON :=
  { proof_parameters :=
      { stark := { fri := { fri_step_list := [0], last_layer_degree_bound := 1,
                            n_queries := 1, proof_of_work_bits := 1 },
                   log_n_cosets := 1 },
        n_verifier_friendly_commitment_layers := 0 },
    annotations :=
      ["P->V[0:32]: /cpu air/STARK/Original/Commit on Trace: Commitment(0x3)"],
    public_input := smallPublicInput,
    proof_hex := List.replicate 2144 0,
    prover_config := { constraint_polynomial_task_size := 1,
                       n_out_of_memory_merkle_layers := 1,
                       table_prover_n_tasks_per_segment := 1 } }

/-- The same proof JSON with one annotation value altered (0x3 became 0x5)
while the hex body is unchanged. -/
def smallProofJsonAltered : ProofJSON :=
  { smallProofJson with
      annotations :=
        ["P->V[0:32]: /cpu air/STARK/Original/Commit on Trace: Commitment(0x5)"] }

theorem starkProofTryFrom_annotations_invariant (j : ProofJSON) (a : List String) :
    starkProofTryFrom { j with annotations := a } = starkProofTryFrom j := by
  cases j
  rfl

theorem new_none_gives_base (pp : ProofParameters) (pc : ProverConfig) (layout : Layout)
    (w : ProofStructure) (h : ProofStructure.new pp pc layout none = some w) :
    mkProofStructure pp pc layout 0 = some w := by
  obtain ⟨a, ha, hb⟩ := Option.bind_eq_some.mp h
  have ha0 : (0 : Nat) = a := Option.some.inj ha
  subst ha0
  obtain ⟨b, hb1, hb2⟩ := Option.bind_eq_some.mp hb
  have hbw : b = w := Option.some.inj hb2
  subst hbw
  exact hb1

theorem applyOverride_spent_of_error (s : SerdeFelt.DeserState) (name : String)
    (h : SerdeFelt.applyOverride name s = .error .MoreLengthsThanVectors) :
    ∃ m, s.lengths = some m ∧ SerdeFelt.lookupLens m name = some [] := by
  unfold SerdeFelt.applyOverride at h
  split at h
  · exact absurd h (by simp)
  · split at h
    · exact absurd h (by simp)
    · exact ⟨_, by assumption, by assumption⟩
    · split at h
      · exact absurd h (by simp)
      · exact absurd h (by simp)

theorem applyOverride_error_of_spent (s : SerdeFelt.DeserState) (name : String)
    (m : SerdeFelt.Lengths) (hm : s.lengths = some m)
    (hlk : SerdeFelt.lookupLens m name = some []) :
    SerdeFelt.applyOverride name s = .error .MoreLengthsThanVectors := by
  unfold SerdeFelt.applyOverride
  rw [hm]
  simp [hlk]

/-- C1 (amended): `StarkProof::try_from` decodes the commitment and
witness structures once, from the hex body with the layout calculator's
length map; it never consults the JSON's annotation lines, so the result
is invariant under any change to them — there is no dual decode and no
equivalence assertion on this path. -/
theorem c1_tryfrom_hex_only (j : ProofJSON) (a : List String) :
    starkProofTryFrom { j with annotations := a } = starkProofTryFrom j :=
  starkProofTryFrom_annotations_invariant j a

set_option maxRecDepth 10000 in
/-- C1 counterexample: a well-formed proof JSON converts successfully, and
altering an annotation value without touching the hex body yields the very
same successful result instead of the failed equality assertion the claim
requires. -/
theorem c1_dual_decode_counterexample :
    (starkProofTryFrom smallProofJson).isOk = true ∧
    smallProofJsonAltered.annotations ≠ smallProofJson.annotations ∧
    starkProofTryFrom smallProofJsonAltered = starkProofTryFrom smallProofJson := by
  refine ⟨by decide, by decide, ?_⟩
  exact starkProofTryFrom_annotations_invariant smallProofJson smallProofJsonAltered.annotations

/-- C2: on the reference-test parameters (layout "recursive",
`fri_step_list = [0,4,4,3]`, 16 queries, degree bound 128, 3 log cosets)
with no expected total, the calculator produces
`first_layer_queries = 112`, `layer_count = 3`,
`composition_decommitment = 48`, `oods = 135`, `composition_leaves = 32`,
`layer = [240, 240, 112]` — but `witness = [192, 128, 80]` and
`authentications = 256`, not the `[200, 136, 88]` (and `256 + 8`) the
repository's own `test_lens` asserts; `fri_degree_bound` is 262144 as
claimed. -/
theorem c2_layout_calculator_eval :
    ProofStructure.new testProofParameters testProverConfig Layout.Recursive none =
      some { first_layer_queries := 112, layer_count := 3, composition_decommitment := 48,
             oods := 135, composition_leaves := 32, last_layer_degree_bound := 128,
             authentications := 256, layer := [240, 240, 112],
             witness := [192, 128, 80] } ∧
    fri_degree_bound testProofParameters = 262144 := by
  decide

/-- C3 (amended): `authentication_additional_queries` is 0 when no total
is supplied; when a total `t` at least the baseline `expected_len()` is
supplied, it is `(t - baseline) / (3 + |witness|)` where `|witness|` is
the number of entries of the baseline witness list — not the sum of its
entries. -/
theorem c3_additional_queries_formula (pp : ProofParameters) (pc : ProverConfig)
    (layout : Layout) :
    authentication_additional_queries pp pc layout none = some 0 ∧
    ∀ t w, ProofStructure.new pp pc layout none = some w → w.expected_len ≤ t →
      authentication_additional_queries pp pc layout (some t) =
        some ((t - w.expected_len) / (3 + w.witness.length)) := by
  refine ⟨rfl, fun t w hw hle => ?_⟩
  have hmk := new_none_gives_base pp pc layout w hw
  unfold authentication_additional_queries
  simp [hmk, hle]

/-- C3 witness: on the reference-test parameters with supplied total 2228
(baseline 2222), the correction is (2228 - 2222) / (3 + 3) = 1. -/
theorem c3_additional_queries_formula_witness :
    authentication_additional_queries testProofParameters testProverConfig Layout.Recursive
      (some 2228) = some 1 := by
  have h := (c3_additional_queries_formula testProofParameters testProverConfig
    Layout.Recursive).2 2228 recursiveBaseStructure (by decide) (by decide)
  exact h.trans (by decide)

/-- C3 counterexample: on the reference-test parameters with total 2228
the code computes 1 (dividing by 3 + the number of witness entries, 3 + 3),
while the claim's divisor 3 + sum(witness) = 3 + 400 would give 0. -/
theorem c3_sum_vs_len_counterexample :
    ProofStructure.new testProofParameters testProverConfig Layout.Recursive none =
      some recursiveBaseStructure ∧
    recursiveBaseStructure.expected_len = 2222 ∧
    recursiveBaseStructure.witness.sum = 400 ∧
    authentication_additional_queries testProofParameters testProverConfig Layout.Recursive
      (some 2228) = some 1 ∧
    (2228 - recursiveBaseStructure.expected_len) / (3 + recursiveBaseStructure.witness.sum)
      = 0 := by
  decide

/-- C4: when the calculator succeeds with no expected total, re-running it
with the resulting `expected_len()` as the expected total succeeds with
the same structure — the mismatch assertion does not fire. -/
theorem c4_expected_len_self_consistent (pp : ProofParameters) (pc : ProverConfig)
    (layout : Layout) (s : ProofStructure)
    (h : ProofStructure.new pp pc layout none = some s) :
    ProofStructure.new pp pc layout (some s.expected_len) = some s := by
  have hmk := new_none_gives_base pp pc layout s h
  unfold ProofStructure.new authentication_additional_queries
  simp [hmk]

/-- C4 witness: on the reference-test parameters the baseline length is
2222 and re-running with expected total 2222 returns the same structure. -/
theorem c4_expected_len_self_consistent_witness :
    ProofStructure.new testProofParameters testProverConfig Layout.Recursive (some 2222) =
      some recursiveBaseStructure := by
  have h := c4_expected_len_self_consistent testProofParameters testProverConfig
    Layout.Recursive recursiveBaseStructure (by decide)
  rw [(by decide : recursiveBaseStructure.expected_len = 2222)] at h
  exact h

/-- C5: encoding `{a: [11, 12], b: 2}` gives `[2, 11, 12, 2]` (length
prefix, elements, trailing scalar); decoding `[2, 11, 12, 2]` with no
overrides reproduces the record; decoding `[11, 12, 2]` with the override
`{a: [2]}` also reproduces it, consuming no length prefix from the
stream. -/
theorem c5_codec_round_trip :
    SerdeFelt.encodeWithSequence { a := [11, 12], b := 2 } = [2, 11, 12, 2] ∧
    SerdeFelt.fromFelts SerdeFelt.decodeWithSequence [2, 11, 12, 2] =
      .ok { a := [11, 12], b := 2 } ∧
    SerdeFelt.fromFeltsWithLengths SerdeFelt.decodeWithSequence [11, 12, 2] [("a", [2])] =
      .ok { a := [11, 12], b := 2 } := by
  decide

/-- C6: `get_dynamics_or_consts` on the recursive layout — no map gives
the base constants; a supplied map with the four keys absent returns
`none` (the `?` operator fires on the absent key, the claim instead
requires the base constants); a present value out of u32 range
(`cpu_component_step = 2^32`) silently falls back to the base constant
(the claim instead requires `none`). -/
theorem c6_dynamic_overrides_eval :
    Layout.get_dynamics_or_consts Layout.Recursive none =
      some (Layout.get_consts Layout.Recursive) ∧
    Layout.get_dynamics_or_consts Layout.Recursive (some []) = none ∧
    Layout.get_dynamics_or_consts Layout.Recursive
        (some [("cpu_component_step", 2 ^ 32), ("constraint_degree", 2),
               ("num_columns_first", 7), ("num_columns_second", 3)]) =
      some (Layout.get_consts Layout.Recursive) := by
  decide

/-- C7 (amended): the decoder fails with `MoreLengthsThanVectors` exactly
when it consumes an override for a field name whose registered length
list is already exhausted — i.e. when the decoder consumes more entries
for that name than were registered; and this surfaces in a top-level
decode whose table registers an empty list for a consumed name. -/
theorem c7_more_lengths_error_iff :
    (∀ (s : SerdeFelt.DeserState) (name : String),
      SerdeFelt.applyOverride name s = .error .MoreLengthsThanVectors ↔
        ∃ m, s.lengths = some m ∧ SerdeFelt.lookupLens m name = some []) ∧
    SerdeFelt.fromFeltsWithLengths SerdeFelt.decodeWithSequence [11, 12, 2] [("a", [])] =
      .error .MoreLengthsThanVectors := by
  refine ⟨fun s name => ⟨applyOverride_spent_of_error s name, ?_⟩, by decide⟩
  rintro ⟨m, hm, hlk⟩
  exact applyOverride_error_of_spent s name m hm hlk

/-- C7 witness: a state whose table registers an empty list for "a"
produces `MoreLengthsThanVectors` when "a" is consumed. -/
theorem c7_more_lengths_error_iff_witness :
    SerdeFelt.applyOverride "a"
      { input := [1], lengths := some [("a", [])], nextLength := none } =
      .error .MoreLengthsThanVectors :=
  (c7_more_lengths_error_iff.1
    { input := [1], lengths := some [("a", [])], nextLength := none } "a").mpr
    ⟨[("a", [])], rfl, rfl⟩

/-- C7 counterexample: registering more override entries for "a" (two)
than the decode consumes (one) does not raise `MoreLengthsThanVectors`
(or any error) — the decode succeeds and the surplus entry is silently
ignored. -/
theorem c7_surplus_lengths_counterexample :
    SerdeFelt.fromFeltsWithLengths SerdeFelt.decodeWithSequence [11, 12, 2]
      [("a", [2, 5])] = .ok { a := [11, 12], b := 2 } ∧
    SerdeFelt.fromFeltsWithLengths SerdeFelt.decodeWithSequence [11, 12, 2]
      [("a", [2, 5])] ≠ .error SerdeFelt.Error.MoreLengthsThanVectors := by
  decide

/-- C8: a top-level decode that succeeds on a prefix of the input returns
its value even when unconsumed felts remain — `from_felts_inner` discards
the leftover input instead of failing. -/
theorem c8_trailing_input_tolerated {α : Type} (dec : SerdeFelt.DecM α)
    (input : List Felt) (lengths : Option SerdeFelt.Lengths) (v : α)
    (s : SerdeFelt.DeserState)
    (hrun : dec { input := input, lengths := lengths, nextLength := none } = .ok (v, s))
    (hleft : s.input ≠ []) :
    SerdeFelt.fromFeltsInner dec input lengths = .ok v := by
  unfold SerdeFelt.fromFeltsInner
  rw [hrun]

/-- C8 witness: decoding `WithSequence` from `[2, 11, 12, 2, 9]` consumes
four felts, leaves `[9]` unread, and still returns the record. -/
theorem c8_trailing_input_tolerated_witness :
    SerdeFelt.fromFeltsInner SerdeFelt.decodeWithSequence [2, 11, 12, 2, 9] none =
      .ok { a := [11, 12], b := 2 } :=
  c8_trailing_input_tolerated SerdeFelt.decodeWithSequence [2, 11, 12, 2, 9] none
    { a := [11, 12], b := 2 } { input := [9], lengths := none, nextLength := none }
    (by decide) (by decide)

/-- C9: with an empty `public_memory` list, public-input construction
returns an error — the padding-cell match bails out before a
`CairoPublicInput` can be produced. -/
theorem c9_empty_public_memory_fails (pi : PublicInput) (h : pi.public_memory = []) :
    ∃ e, publicInputOf pi = .error e := by
  unfold publicInputOf
  rw [h]
  cases hd : convertDynamicParams pi.dynamic_params with
  | error e =>
    exact ⟨e, by simp [main_page, List.mapM, List.mapM.loop, hd, Except.bind, bind,
      pure, Except.pure]⟩
  | ok d =>
    cases hl : layoutFelt pi.layout with
    | error e =>
      exact ⟨e, by simp [main_page, List.mapM, List.mapM.loop, hd, hl, Except.bind, bind,
        pure, Except.pure]⟩
    | ok lf =>
      exact ⟨"Invalid public memory",
        by simp [main_page, List.mapM, List.mapM.loop, hd, hl, Except.bind, bind,
          pure, Except.pure]⟩

/-- C9 witness: the concrete public input with empty memory fails. -/
theorem c9_empty_public_memory_fails_witness :
    ∃ e, publicInputOf emptyMemoryPublicInput = .error e :=
  c9_empty_public_memory_fails emptyMemoryPublicInput rfl

/-- C10: when the supplied total is smaller than the baseline
`expected_len()`, the unchecked `usize` subtraction in
`authentication_additional_queries` underflows and
`ProofStructure::new` aborts (modelled as `none`) instead of returning a
typed error. -/
theorem c10_small_total_aborts (pp : ProofParameters) (pc : ProverConfig)
    (layout : Layout) (t : Nat) (w : ProofStructure)
    (hw : ProofStructure.new pp pc layout none = some w) (hlt : t < w.expected_len) :
    ProofStructure.new pp pc layout (some t) = none := by
  have hmk := new_none_gives_base pp pc layout w hw
  have hnle : ¬ w.expected_len ≤ t := Nat.not_le.mpr hlt
  unfold ProofStructure.new authentication_additional_queries
  simp [hmk, hnle]

/-- C10 witness: on the reference-test parameters (baseline 2222) a
supplied total of 0 aborts the computation. -/
theorem c10_small_total_aborts_witness :
    ProofStructure.new testProofParameters testProverConfig Layout.Recursive (some 0) =
      none :=
  c10_small_total_aborts testProofParameters testProverConfig Layout.Recursive 0
    recursiveBaseStructure (by decide) (by decide)
